import Mathlib

/-!
# Verification of quicksight-sync

A shallow embedding of the core logic of the `quicksight-sync` tool
(`src/quicksight/essentials.py`, `src/quicksight/export_assets.py`,
`src/quicksight/import_assets.py`) together with proofs of the behavioural
claims about it.

Python values flowing through the tool (JSON-like dictionaries, lists,
strings, integers, `None`) are modelled by the inductive type `Val`;
Python dictionaries by insertion-ordered association lists with string
keys; Python exceptions by the error type `PyErr` carried in `Except`;
the synchronous AWS API calls by an explicit state monad `M` that records
the call trace and propagates errors while keeping the trace.
-/

set_option maxHeartbeats 1000000

namespace QSSync

/-- JSON-like Python values: `None`, integers, strings, lists and
(string-keyed, insertion-ordered) dictionaries. -/
inductive PyVal where
  | null : PyVal
  | int (n : Int) : PyVal
  | str (s : String) : PyVal
  | list (xs : List PyVal) : PyVal
  | dict (entries : List (String × PyVal)) : PyVal

/-- Python exceptions raised by the modelled code: `ClientError` (with the
`err.response["Error"]["Code"]` string and the full response), `ValueError`
(with the static text of the message; interpolated values are elided),
`KeyError` (with the missing key), `IndexError`, `TypeError` and
`AttributeError`. -/
inductive PyErr where
  | clientError (code : String) (response : List (String × PyVal)) : PyErr
  | valueError (msg : String) : PyErr
  | keyError (key : String) : PyErr
  | indexError : PyErr
  | typeError : PyErr
  | attributeError : PyErr

/-- A Python dictionary: an insertion-ordered association list with unique
string keys (uniqueness is maintained by `dSet`). -/
abbrev Dict := List (String × PyVal)

/-- First value stored under key `k`, if any (`d.get(k)` without default). -/
def dFind? (d : Dict) (k : String) : Option PyVal :=
  match d with
  | [] => none
  | (k2, v) :: rest => if k2 = k then some v else dFind? rest k

/-- Model of `d.get(k, default)`. -/
def dGetD (d : Dict) (k : String) (default : PyVal) : PyVal :=
  match dFind? d k with
  | some v => v
  | none => default

/-- Model of `k in d`. -/
def dContains (d : Dict) (k : String) : Bool :=
  match dFind? d k with
  | some _ => true
  | none => false

/-- Model of `d[k]`: the stored value, or a `KeyError` when the key is absent. -/
def dGetItem (d : Dict) (k : String) : Except PyErr PyVal :=
  match dFind? d k with
  | some v => .ok v
  | none => .error (.keyError k)

/-- Model of `d[k] = v` (also `d.update(k=v)`): replace the value in place when the
key is present, append the pair otherwise — Python dict assignment keeps
the original insertion position of an existing key. -/
def dSet (d : Dict) (k : String) (v : PyVal) : Dict :=
  match d with
  | [] => [(k, v)]
  | (k2, w) :: rest => if k2 = k then (k2, v) :: rest else (k2, w) :: dSet rest k v

/-- Remove every entry stored under `k` (the effect of `d.pop(k)` on the
dictionary). -/
def dErase (d : Dict) (k : String) : Dict :=
  d.filter (fun kv => kv.1 ≠ k)

/-- Model of `d.pop(k)`: the dictionary without the entry, or a `KeyError` when the
key is absent. -/
def dPop (d : Dict) (k : String) : Except PyErr Dict :=
  match dFind? d k with
  | some _ => .ok (dErase d k)
  | none => .error (.keyError k)

/-- Model of `d.values()`, in insertion order. -/
def dValues (d : Dict) : List PyVal :=
  d.map (fun kv => kv.2)

/-- Model of `v` treated as a Python `str`; any other type raises (as string
concatenation or `str.split` on it would). -/
def asStr (v : PyVal) : Except PyErr String :=
  match v with
  | .str s => .ok s
  | _ => .error .typeError

/-- Model of `v` treated as a Python `dict`; any other type raises (as `in`, `.get`
or `.values()` on it would, with `TypeError`/`AttributeError` collapsed
into one model error). -/
def asDict (v : PyVal) : Except PyErr Dict :=
  match v with
  | .dict d => .ok d
  | _ => .error .typeError

/-- Model of `v` treated as a Python `list` (for iteration); any other type raises. -/
def asList (v : PyVal) : Except PyErr (List PyVal) :=
  match v with
  | .list xs => .ok xs
  | _ => .error .typeError

/-- Model of `v is not None`. -/
def isNotNone (v : PyVal) : Bool :=
  match v with
  | .null => false
  | _ => true

/-!
## Python string splitting (`str.split` with a one-character separator)

`essentials.get_id_from_arn` and `essentials.get_account_id_from_arn` use
`arn.split("/")` and `arn.split(":")`; both separators in the source are
single characters, so the split is modelled on character lists.
-/

/-- Model of `s.split(sep)` for a one-character separator, on the character list of
the string: always returns a non-empty list of (possibly empty) chunks. -/
def pySplit (sep : Char) : List Char → List (List Char)
  | [] => [[]]
  | c :: rest =>
    match pySplit sep rest with
    | [] => [[]]
    | w :: ws => if c = sep then [] :: w :: ws else (c :: w) :: ws

/-!
## ARN helpers (`essentials.py`, lines 14–37)
-/

/-- Model of `get_id_from_arn(arn)`: `arn.split("/")[-1]`. The split list is never
empty, so the Python `[-1]` index is total; it is rendered as `getLastD`. -/
def get_id_from_arn (arn : String) : String :=
  String.mk ((pySplit '/' arn.data).getLastD [])

/-- Model of `get_account_id_from_arn(arn)`: `arn.split(":")[4]`, raising
`IndexError` when there are fewer than five colon-separated chunks. -/
def get_account_id_from_arn (arn : String) : Except PyErr String :=
  match (pySplit ':' arn.data).get? 4 with
  | some l => .ok (String.mk l)
  | none => .error .indexError

/-!
## Effect model

The AWS QuickSight client calls (`create_*`, `update_*`, `describe_*`) are
synchronous calls on an external collaborator.  They are modelled as
functions into the monad `M`, which threads the list of calls issued so
far (the call trace) and propagates a raised exception while keeping the
trace — so "which objects were created before the failure" stays
observable.
-/

/-- One provider call: the API name and the keyword arguments it received. -/
abbrev Call := String × Dict

/-- Trace-threading error monad: state is the list of provider calls made
so far; an error keeps the trace accumulated up to the failure. -/
def M (α : Type) : Type := List Call → Except PyErr α × List Call

instance : Monad M where
  pure a := fun t => (.ok a, t)
  bind x f := fun t =>
    match x t with
    | (.ok a, t2) => f a t2
    | (.error e, t2) => (.error e, t2)

def mThrow {α : Type} (e : PyErr) : M α := fun t => (.error e, t)

/-- Lift a pure fallible computation into `M` (no call is recorded). -/
def liftE {α : Type} : Except PyErr α → M α
  | .ok a => fun t => (.ok a, t)
  | .error e => mThrow e

/-- Record one provider call in the trace. -/
def record (api : String) (args : Dict) : M Unit := fun t => (.ok (), t ++ [(api, args)])

/-!
## `essentials.py`: shared primitives
-/

/-- Model of `len(v)` for sized Python values. -/
def pyLen (v : PyVal) : Except PyErr Int :=
  match v with
  | .list xs => .ok xs.length
  | .dict d => .ok d.length
  | .str s => .ok s.length
  | _ => .error .typeError

/-- Model of `response.get("Status", 0)` read as an integer; a non-integer value
raises where the source would fail on the `<`/`>=` comparison. -/
def getStatus (r : Dict) : Except PyErr Int :=
  match dFind? r "Status" with
  | none => .ok 0
  | some (.int n) => .ok n
  | some _ => .error .typeError

/-- The trailing status validation in `create_or_update_asset`
(`essentials.py`, lines 245–249), also used by `find_assets`. -/
def checkStatus (response : Dict) : Except PyErr Dict := do
  let status ← getStatus response
  if status < 200 ∨ status ≥ 300 then
    .error (.valueError "Request failed with status")
  else
    .ok response

/-- Model of `find_assets` (`essentials.py`, lines 59–92): build the search
parameters, call the search function, validate the status, raise a
not-found `ValueError` on zero matches, otherwise return the raw matched
list. -/
def find_assets (account_id : String) (search_fn : Dict → Except PyErr Dict)
    (filters : PyVal) (lookup_field : String) : Except PyErr PyVal := do
  let response ← search_fn
    [("AwsAccountId", .str account_id), ("Filters", filters), ("MaxResults", .int 10)]
  let status ← getStatus response
  if status < 200 ∨ status ≥ 300 then
    .error (.valueError "Request failed with status")
  else do
    let found ← pyLen (dGetD response lookup_field (.list []))
    if found = 0 then
      .error (.valueError "No assets found for filters")
    else
      dGetItem response lookup_field

/-- Model of `find_asset_ids` (`essentials.py`, lines 146–175):
`[asset.get(id_key) for asset in find_assets(...)]`. -/
def find_asset_ids (account_id : String) (search_fn : Dict → Except PyErr Dict)
    (filters : PyVal) (lookup_field : String) (id_key : String) :
    Except PyErr (List PyVal) := do
  let assets ← find_assets account_id search_fn filters lookup_field
  let xs ← asList assets
  xs.mapM (fun a => do
    let d ← asDict a
    return dGetD d id_key .null)

/-- Model of `find_asset_id` (`essentials.py`, lines 178–212): the single-result
variant; raises a cardinality `ValueError` when more than one asset
matches, otherwise returns `ids[0]`. -/
def find_asset_id (account_id : String) (search_fn : Dict → Except PyErr Dict)
    (filters : PyVal) (lookup_field : String) (id_key : String) :
    Except PyErr PyVal := do
  let ids ← find_asset_ids account_id search_fn filters lookup_field id_key
  if ids.length > 1 then
    .error (.valueError "Multiple assets found for filters")
  else
    match ids with
    | i :: _ => .ok i
    | [] => .error .indexError

/-- Model of `describe_asset` (`essentials.py`, lines 95–117): call the describe
function with `AwsAccountId` prepended to the parameters, validate the
status, and return either the whole response or the `lookup_field`
projection of it. -/
def describe_asset (account_id : String) (describe_fn : Dict → M Dict)
    (params : Dict) (lookup_field : Option String := none) : M PyVal := do
  let response ← describe_fn (("AwsAccountId", .str account_id) :: params)
  let status ← liftE (getStatus response)
  if 200 ≤ status ∧ status < 300 then
    match lookup_field with
    | some f => pure (dGetD response f .null)
    | none => pure (.dict response)
  else
    mThrow (.valueError "describe failed")

/-- Model of `get_asset_ids_from_definition` (`essentials.py`, lines 120–138): for
each definition, raise `IndexError` when `arn_key` is absent, otherwise
yield the id extracted from the ARN stored there. -/
def get_asset_ids_from_definition (definitions : List PyVal)
    (arn_key : String := "Arn") : Except PyErr (List String) :=
  definitions.mapM (fun dataset => do
    let d ← asDict dataset
    if dContains d arn_key then do
      let arn ← asStr (dGetD d arn_key .null)
      return get_id_from_arn arn
    else
      .error .indexError)

/-- Model of `create_or_update_asset` (`essentials.py`, lines 218–249): try the
create call; on a `ClientError` whose code is `ResourceExistsException`,
drop `Permissions` (unconditionally — `dPop params` raises `KeyError` when
it is absent) and `Type` (when present) and call update instead; re-raise
any other error; finally validate the response status. -/
def create_or_update_asset (params : Dict) (create_fn update_fn : Dict → M Dict) :
    M Dict :=
  fun t =>
    match create_fn params t with
    | (.ok response, t2) => liftE (checkStatus response) t2
    | (.error (.clientError code resp), t2) =>
      if code = "ResourceExistsException" then
        (do
          let p1 ← liftE (dPop params "Permissions")
          let p2 := if dContains p1 "Type" then dErase p1 "Type" else p1
          let response ← update_fn p2
          liftE (checkStatus response) : M Dict) t2
      else
        (.error (.clientError code resp), t2)
    | (.error e, t2) => (.error e, t2)

/-- The identifier `find_asset_ids` reads off one matched asset:
`asset.get(id_key)`. -/
def idOf (id_key : String) (a : PyVal) : PyVal :=
  match a with
  | .dict d => dGetD d id_key .null
  | _ => .null

/-- The parameters `create_or_update_asset` hands to the update call after
an already-exists error: the create parameters minus `Permissions`, and
minus `Type` when present. -/
def updateParams (params : Dict) : Dict :=
  let p1 := dErase params "Permissions"
  if dContains p1 "Type" then dErase p1 "Type" else p1

/-- Whether an error is the provider's already-exists signal
(`ClientError` with code `ResourceExistsException`). -/
def isAlreadyExists (e : PyErr) : Bool :=
  match e with
  | .clientError code _ => code == "ResourceExistsException"
  | _ => false

/-!
## `export_assets.py`: export pipeline
-/

/-- Model of `set(...)` applied to a generated list of id strings: deduplication
keeping the first occurrence of each id.  Python's `set` iteration order
is unspecified; every property proved below about a set is insensitive to
the order (cardinality, membership). -/
def pySet (l : List String) : List String :=
  l.foldl (fun acc x => if x ∈ acc then acc else acc ++ [x]) []

/-- The comprehension pattern `[d.get(k) for d in xs if k in d]`, evaluated
left to right, raising when an element is not a dictionary. -/
def filterMapKey (k : String) : List PyVal → Except PyErr (List PyVal)
  | [] => .ok []
  | ds :: rest => do
    let d ← asDict ds
    if dContains d k then do
      let tail ← filterMapKey k rest
      return dGetD d k .null :: tail
    else
      filterMapKey k rest

/-- Model of `get_analysis_dataset_ids` (`export_assets.py`, lines 14–29):
`set(get_asset_ids_from_definition(defn.get("Definition").get("DataSetIdentifierDeclarations"), "DataSetArn"))`. -/
def get_analysis_dataset_ids (analysis_definition : PyVal) :
    Except PyErr (List String) := do
  let d ← asDict analysis_definition
  let defn ← asDict (dGetD d "Definition" .null)
  let decls ← asList (dGetD defn "DataSetIdentifierDeclarations" .null)
  let ids ← get_asset_ids_from_definition decls "DataSetArn"
  return pySet ids

/-- Model of `get_rls_dataset_ids` (`export_assets.py`, lines 32–58): collect the
`RowLevelPermissionDataSet` values of the entries that have that key,
return the empty set when none does, otherwise the set of ids extracted
from their `Arn` fields. -/
def get_rls_dataset_ids (dataset_definitions : List PyVal) :
    Except PyErr (List String) := do
  let rls_dataset_definitions ← filterMapKey "RowLevelPermissionDataSet" dataset_definitions
  if rls_dataset_definitions.length = 0 then
    return []
  else do
    let ids ← get_asset_ids_from_definition rls_dataset_definitions "Arn"
    return pySet ids

/-- The nested comprehension of `get_datasource_ids`: every
`RelationalTable` value found in `ds.get("PhysicalTableMap", {}).values()`
across the dataset definitions, in order. -/
def relationalRefs : List PyVal → Except PyErr (List PyVal)
  | [] => .ok []
  | ds :: rest => do
    let d ← asDict ds
    let ptm ← asDict (dGetD d "PhysicalTableMap" (.dict []))
    let here ← filterMapKey "RelationalTable" (dValues ptm)
    let tail ← relationalRefs rest
    return here ++ tail

/-- Model of `get_datasource_ids` (`export_assets.py`, lines 61–82). -/
def get_datasource_ids (dataset_definitions : List PyVal) :
    Except PyErr (List String) := do
  let refs ← relationalRefs dataset_definitions
  if refs.length = 0 then
    return []
  else do
    let ids ← get_asset_ids_from_definition refs "DataSourceArn"
    return pySet ids

/-- The QuickSight client: the collection of provider calls the tool
uses.  Each field is one API call into the effect monad `M`. -/
structure QSClient where
  describe_analysis_definition : Dict → M Dict
  describe_analysis_permissions : Dict → M Dict
  describe_data_set : Dict → M Dict
  describe_data_set_permissions : Dict → M Dict
  describe_data_source : Dict → M Dict
  describe_data_source_permissions : Dict → M Dict
  create_data_source : Dict → M Dict
  update_data_source : Dict → M Dict
  create_data_set : Dict → M Dict
  update_data_set : Dict → M Dict
  create_analysis : Dict → M Dict
  update_analysis : Dict → M Dict
  create_dashboard : Dict → M Dict
  update_dashboard : Dict → M Dict
  update_dashboard_published_version : Dict → M Dict

/-- Model of `get_analysis_definition` (`export_assets.py`, lines 90–110). -/
def get_analysis_definition (account_id analysis_id : String) (qs : QSClient) : M PyVal :=
  describe_asset account_id qs.describe_analysis_definition
    [("AnalysisId", .str analysis_id)]

/-- Model of `get_analysis_permissions` (`export_assets.py`, lines 113–134). -/
def get_analysis_permissions (account_id analysis_id : String) (qs : QSClient) : M PyVal :=
  describe_asset account_id qs.describe_analysis_permissions
    [("AnalysisId", .str analysis_id)] (some "Permissions")

/-- Model of `get_dataset_definition` (`export_assets.py`, lines 137–158). -/
def get_dataset_definition (account_id dataset_id : String) (qs : QSClient) : M PyVal :=
  describe_asset account_id qs.describe_data_set
    [("DataSetId", .str dataset_id)] (some "DataSet")

/-- Model of `get_dataset_permissions` (`export_assets.py`, lines 161–182). -/
def get_dataset_permissions (account_id dataset_id : String) (qs : QSClient) : M PyVal :=
  describe_asset account_id qs.describe_data_set_permissions
    [("DataSetId", .str dataset_id)] (some "Permissions")

/-- Model of `get_datasource_definition` (`export_assets.py`, lines 185–206). -/
def get_datasource_definition (account_id datasource_id : String) (qs : QSClient) : M PyVal :=
  describe_asset account_id qs.describe_data_source
    [("DataSourceId", .str datasource_id)] (some "DataSource")

/-- Model of `get_datasource_permissions` (`export_assets.py`, lines 209–230). -/
def get_datasource_permissions (account_id datasource_id : String) (qs : QSClient) : M PyVal :=
  describe_asset account_id qs.describe_data_source_permissions
    [("DataSourceId", .str datasource_id)] (some "Permissions")

/-- Model of `dump_analysis` (`export_assets.py`, lines 238–244). -/
def dump_analysis (definition : PyVal) (permissions : PyVal) : Except PyErr Dict := do
  let d ← asDict definition
  let aid ← dGetItem d "AnalysisId"
  let name ← dGetItem d "Name"
  let defn ← dGetItem d "Definition"
  return [("AnalysisId", aid), ("Name", name), ("Definition", defn),
    ("Permissions", permissions)]

/-- Model of `dump_dataset` (`export_assets.py`, lines 247–258). -/
def dump_dataset (definition : PyVal) (permissions : PyVal) : Except PyErr Dict := do
  let d ← asDict definition
  let dsid ← dGetItem d "DataSetId"
  let name ← dGetItem d "Name"
  let ptm ← dGetItem d "PhysicalTableMap"
  let ltm ← dGetItem d "LogicalTableMap"
  let outCols ← dGetItem d "OutputColumns"
  let mode ← dGetItem d "ImportMode"
  return [("DataSetId", dsid), ("Name", name), ("PhysicalTableMap", ptm),
    ("LogicalTableMap", ltm), ("OutputColumns", outCols), ("ImportMode", mode),
    ("Permissions", permissions),
    ("RowLevelPermissionDataSet", dGetD d "RowLevelPermissionDataSet" .null),
    ("DataSetUsageConfiguration", dGetD d "DataSetUsageConfiguration" .null)]

/-- Model of `dump_data_source` (`export_assets.py`, lines 261–272): the record
written into the bundle for a data source — `Credentials` is the literal
`None`. -/
def dump_data_source (definition : PyVal) (permissions : PyVal) : Except PyErr Dict := do
  let d ← asDict definition
  let dsid ← dGetItem d "DataSourceId"
  let name ← dGetItem d "Name"
  let ty ← dGetItem d "Type"
  let params ← dGetItem d "DataSourceParameters"
  return [("DataSourceId", dsid), ("Name", name), ("Type", ty),
    ("DataSourceParameters", params), ("Credentials", .null),
    ("Permissions", permissions),
    ("VpcConnectionProperties", dGetD d "VpcConnectionProperties" .null),
    ("SslProperties", dGetD d "SslProperties" .null),
    ("ErrorInfo", dGetD d "ErrorInfo" .null)]

/-- The `{"definition": ..., "permissions": ...}` row built for each
fetched dataset or data source inside `get_dump`. -/
def fetchRow (defn perms : PyVal) : PyVal :=
  .dict [("definition", defn), ("permissions", perms)]

/-- Read back the `definition` field of a `fetchRow`. -/
def rowDefinition (row : PyVal) : Except PyErr PyVal := do
  let d ← asDict row
  dGetItem d "definition"

/-- Dump one fetched row with `dump_dataset`. -/
def dumpRowAsDataset (row : PyVal) : Except PyErr Dict := do
  let d ← asDict row
  let defn ← dGetItem d "definition"
  let perms ← dGetItem d "permissions"
  dump_dataset defn perms

/-- Dump one fetched row with `dump_data_source`. -/
def dumpRowAsDataSource (row : PyVal) : Except PyErr Dict := do
  let d ← asDict row
  let defn ← dGetItem d "definition"
  let perms ← dGetItem d "permissions"
  dump_data_source defn perms

/-- Model of `get_dump` (`export_assets.py`, lines 278–407): the export
orchestrator.  Note that the row-level-security extraction is applied to
the list of `{"definition", "permissions"}` rows, exactly as in the
source (line 341), not to the inner definitions. -/
def get_dump (account_id? : Option String) (qs? : Option QSClient)
    (analysis_id? : Option String) : M Dict := do
  match account_id?, qs?, analysis_id? with
  | none, _, _ => mThrow (.valueError "account_id is required")
  | some _, none, _ => mThrow (.valueError "qs_client is required")
  | some _, some _, none => mThrow (.valueError "analysis_id is required")
  | some account_id, some qs, some analysis_id => do
    let analysis_definition ← get_analysis_definition account_id analysis_id qs
    let analysis_permissions ← get_analysis_permissions account_id analysis_id qs
    let analysis_dataset_ids ← liftE (get_analysis_dataset_ids analysis_definition)
    let analysis_dataset_definitions ← analysis_dataset_ids.mapM (fun i => do
      let defn ← get_dataset_definition account_id i qs
      let perms ← get_dataset_permissions account_id i qs
      pure (fetchRow defn perms))
    let rls_dataset_ids ← liftE (get_rls_dataset_ids analysis_dataset_definitions)
    let rls_dataset_definitions ← rls_dataset_ids.mapM (fun i => do
      let defn ← get_dataset_definition account_id i qs
      let perms ← get_dataset_permissions account_id i qs
      pure (fetchRow defn perms))
    let rowDefs ← liftE
      ((analysis_dataset_definitions ++ rls_dataset_definitions).mapM rowDefinition)
    let datasource_ids ← liftE (get_datasource_ids rowDefs)
    let datasource_definitions ← datasource_ids.mapM (fun i => do
      let defn ← get_datasource_definition account_id i qs
      let perms ← get_datasource_permissions account_id i qs
      pure (fetchRow defn perms))
    let analysisDump ← liftE (dump_analysis analysis_definition analysis_permissions)
    let adumps ← liftE (analysis_dataset_definitions.mapM dumpRowAsDataset)
    let sdumps ← liftE (rls_dataset_definitions.mapM dumpRowAsDataset)
    let ddumps ← liftE (datasource_definitions.mapM dumpRowAsDataSource)
    return [("analysis", .dict analysisDump),
      ("analysis_datasets", .list (adumps.map .dict)),
      ("security_datasets", .list (sdumps.map .dict)),
      ("datasources", .list (ddumps.map .dict))]

/-- Well-formedness of one physical-table entry, for stating C10: the
entry's value is a dictionary and, whenever it has a `RelationalTable`,
that value is a dictionary whose `DataSourceArn` is a string. -/
def tableWF (kv : String × PyVal) : Prop :=
  ∃ td, kv.2 = .dict td ∧
    ∀ relV, dFind? td "RelationalTable" = some relV →
      ∃ rel, relV = .dict rel ∧ ∃ arn, dFind? rel "DataSourceArn" = some (.str arn)

/-!
## `import_assets.py`: import pipeline
-/

def IMPORT_SUFFIX : String := "-imported"

/-- Model of `prepare_datasource_definition` (`import_assets.py`, lines 16–23):
drop `None`-valued fields, then set the renamed `Name` and the target
`AwsAccountId`. -/
def prepare_datasource_definition (account_id : String) (datasource : Dict) :
    Except PyErr Dict := do
  let definition := datasource.filter (fun kv => isNotNone kv.2)
  let nameV ← dGetItem datasource "Name"
  let name ← asStr nameV
  return dSet (dSet definition "Name" (.str (name ++ IMPORT_SUFFIX)))
    "AwsAccountId" (.str account_id)

/-- Model of `import_datasource` (`import_assets.py`, lines 26–49): re-identify the
data source, create-or-update it, and report the original id and the new
locator.  The `print` call is elided except for its `datasource['Name']`
lookup, which can raise. -/
def import_datasource (qs : QSClient) (datasource : Dict) : M Dict := do
  let _ ← liftE (dGetItem datasource "Name")
  let origV ← liftE (dGetItem datasource "DataSourceId")
  let orig ← liftE (asStr origV)
  let target := orig ++ IMPORT_SUFFIX
  let params := dSet datasource "DataSourceId" (.str target)
  let response ← create_or_update_asset params qs.create_data_source qs.update_data_source
  let nameV ← liftE (dGetItem datasource "Name")
  let arn ← liftE (dGetItem response "Arn")
  let newId ← liftE (dGetItem response "DataSourceId")
  return [("name", nameV), ("arn", arn), ("new_id", newId), ("org_id", origV)]

/-- Model of `import_datasources` (`import_assets.py`, lines 52–64). -/
def import_datasources (account_id : String) (qs : QSClient)
    (datasources : List PyVal) : M (List Dict) :=
  datasources.mapM (fun ds => do
    let d ← liftE (asDict ds)
    let prepared ← liftE (prepare_datasource_definition account_id d)
    import_datasource qs prepared)

/-- The rewrite loop of `prepare_dataset_definition` over
`definition["PhysicalTableMap"].values()`: each table's
`RelationalTable.DataSourceArn` is replaced by
`datasource_id_map[get_id_from_arn(old_arn)]`, raising `KeyError` when
the table has no `RelationalTable` or the id is not in the map. -/
def mapRelationalTables (datasource_id_map : Dict) :
    List (String × PyVal) → Except PyErr (List (String × PyVal))
  | [] => .ok []
  | (k, table) :: rest => do
    let td ← asDict table
    let relV ← dGetItem td "RelationalTable"
    let rel ← asDict relV
    let arnV ← dGetItem rel "DataSourceArn"
    let arn ← asStr arnV
    let newArn ← dGetItem datasource_id_map (get_id_from_arn arn)
    let td2 := dSet td "RelationalTable" (.dict (dSet rel "DataSourceArn" newArn))
    let tail ← mapRelationalTables datasource_id_map rest
    return (k, .dict td2) :: tail

/-- Model of `prepare_dataset_definition` (`import_assets.py`, lines 72–100): drop
`OutputColumns` and `None`-valued fields, rename and re-account, rewrite
every physical table's data-source reference through the data-source
remap table and, when a row-level-security reference with an `Arn` is
present, rewrite it through the dataset remap table. -/
def prepare_dataset_definition (account_id : String) (dataset : Dict)
    (datasource_id_map : Dict) (dataset_id_map : Dict) : Except PyErr Dict := do
  let definition := dataset.filter
    (fun kv => (kv.1 != "OutputColumns") && isNotNone kv.2)
  let nameV ← dGetItem dataset "Name"
  let name ← asStr nameV
  let definition := dSet (dSet definition "Name" (.str (name ++ IMPORT_SUFFIX)))
    "AwsAccountId" (.str account_id)
  let ptmV ← dGetItem definition "PhysicalTableMap"
  let ptm ← asDict ptmV
  let ptm2 ← mapRelationalTables datasource_id_map ptm
  let definition := dSet definition "PhysicalTableMap" (.dict ptm2)
  if dContains definition "RowLevelPermissionDataSet" then do
    let rlsV ← dGetItem definition "RowLevelPermissionDataSet"
    let rls ← asDict rlsV
    if dContains rls "Arn" then do
      let arnV ← dGetItem rls "Arn"
      let arn ← asStr arnV
      let newArn ← dGetItem dataset_id_map (get_id_from_arn arn)
      return dSet definition "RowLevelPermissionDataSet" (.dict (dSet rls "Arn" newArn))
    else
      return definition
  else
    return definition

/-- Model of `import_dataset` (`import_assets.py`, lines 103–130). -/
def import_dataset (qs : QSClient) (dataset : Dict) : M Dict := do
  let _ ← liftE (dGetItem dataset "Name")
  let origV ← liftE (dGetItem dataset "DataSetId")
  let orig ← liftE (asStr origV)
  let target := orig ++ IMPORT_SUFFIX
  let dataset2 := dSet dataset "DataSetId" (.str target)
  let response ← create_or_update_asset dataset2 qs.create_data_set qs.update_data_set
  let nameV ← liftE (dGetItem dataset2 "Name")
  let arn ← liftE (dGetItem response "Arn")
  let newId ← liftE (dGetItem response "DataSetId")
  return [("name", nameV), ("arn", arn), ("new_id", newId), ("org_id", origV),
    ("ingestion_id", dGetD response "IngestionId" .null),
    ("ingestion_arn", dGetD response "IngestionArn" .null)]

/-- Model of `import_datasets` (`import_assets.py`, lines 133–152). -/
def import_datasets (account_id : String) (qs : QSClient) (datasets : List PyVal)
    (datasource_id_map : Dict) (dataset_id_map : Dict) : M (List Dict) :=
  datasets.mapM (fun ds => do
    let d ← liftE (asDict ds)
    let prepared ← liftE
      (prepare_dataset_definition account_id d datasource_id_map dataset_id_map)
    import_dataset qs prepared)

/-- The rewrite loop of `prepare_analysis_definition` over
`definition["Definition"].get("DataSetIdentifierDeclarations")`. -/
def mapDeclarations (dataset_id_map : Dict) :
    List PyVal → Except PyErr (List PyVal)
  | [] => .ok []
  | ds :: rest => do
    let d ← asDict ds
    let arnV ← dGetItem d "DataSetArn"
    let arn ← asStr arnV
    let newArn ← dGetItem dataset_id_map (get_id_from_arn arn)
    let tail ← mapDeclarations dataset_id_map rest
    return .dict (dSet d "DataSetArn" newArn) :: tail

/-- Model of `prepare_analysis_definition` (`import_assets.py`, lines 155–186). -/
def prepare_analysis_definition (account_id : String) (dataset_id_map : Dict)
    (analysis : Dict) : Except PyErr Dict := do
  let nameV ← dGetItem analysis "Name"
  let name ← asStr nameV
  let aidV ← dGetItem analysis "AnalysisId"
  let aid ← asStr aidV
  let definition := dSet (dSet (dSet analysis "Name" (.str (name ++ "-imported")))
    "AnalysisId" (.str (aid ++ "-imported"))) "AwsAccountId" (.str account_id)
  let defnV ← dGetItem definition "Definition"
  let defn ← asDict defnV
  let decls ← asList (dGetD defn "DataSetIdentifierDeclarations" .null)
  let decls2 ← mapDeclarations dataset_id_map decls
  return dSet definition "Definition"
    (.dict (dSet defn "DataSetIdentifierDeclarations" (.list decls2)))

/-- Model of `import_analysis` (`import_assets.py`, lines 189–203). -/
def import_analysis (qs : QSClient) (analysis : Dict) : M Dict := do
  let _ ← liftE (dGetItem analysis "Name")
  let response ← create_or_update_asset analysis qs.create_analysis qs.update_analysis
  let nameV ← liftE (dGetItem analysis "Name")
  let arn ← liftE (dGetItem response "Arn")
  let aid ← liftE (dGetItem response "AnalysisId")
  return [("name", nameV), ("arn", arn), ("id", aid)]

/-- Decimal digits to a number (for the `int(...)` parse below). -/
def digitsToNat (l : List Char) : Nat :=
  l.foldl (fun acc c => acc * 10 + (c.toNat - ('0').toNat)) 0

/-- Model of `int(s)` restricted to non-empty all-digit strings, which is the only
shape the version suffix of a dashboard version ARN takes; anything else
raises `ValueError` as `int()` would. -/
def pyParseInt (s : String) : Except PyErr Int :=
  if s.data ≠ [] ∧ s.data.all Char.isDigit then
    .ok (digitsToNat s.data)
  else
    .error (.valueError "invalid literal for int")

/-- Model of `get_dashboard_version` (`import_assets.py`, lines 206–216):
`int(version_arn.split("/")[-1])`. -/
def get_dashboard_version (version_arn : String) : Except PyErr Int :=
  pyParseInt (String.mk ((pySplit '/' version_arn.data).getLastD []))

/-- The fixed `DashboardPublishOptions` block of
`prepare_dashboard_definition` (`import_assets.py`, lines 244–255). -/
def dashboardPublishOptions : PyVal := .dict
  [("AdHocFilteringOption", .dict [("AvailabilityStatus", .str "DISABLED")]),
   ("ExportToCSVOption", .dict [("AvailabilityStatus", .str "ENABLED")]),
   ("SheetControlsOption", .dict [("VisibilityState", .str "COLLAPSED")]),
   ("SheetLayoutElementMaximizationOption", .dict [("AvailabilityStatus", .str "ENABLED")]),
   ("VisualMenuOption", .dict [("AvailabilityStatus", .str "ENABLED")]),
   ("VisualAxisSortOption", .dict [("AvailabilityStatus", .str "ENABLED")]),
   ("ExportWithHiddenFieldsOption", .dict [("AvailabilityStatus", .str "DISABLED")]),
   ("DataPointDrillUpDownOption", .dict [("AvailabilityStatus", .str "ENABLED")]),
   ("DataPointMenuLabelOption", .dict [("AvailabilityStatus", .str "ENABLED")]),
   ("DataPointTooltipOption", .dict [("AvailabilityStatus", .str "ENABLED")])]

/-- The fixed permission grant list of `prepare_dashboard_definition`
(`import_assets.py`, lines 257–279). -/
def dashboardPermissions : PyVal := .list
  [.dict [("Principal",
      .str "arn:aws:quicksight:us-east-1:157367673944:group/default/Reporting_management"),
    ("Actions", .list [.str "quicksight:DescribeDashboard",
      .str "quicksight:QueryDashboard", .str "quicksight:ListDashboardVersions"])],
   .dict [("Principal",
      .str "arn:aws:quicksight:us-east-1:157367673944:user/default/dmitrii.kharitonov+dev@vindow.com"),
    ("Actions", .list [.str "quicksight:DescribeDashboard",
      .str "quicksight:ListDashboardVersions",
      .str "quicksight:UpdateDashboardPermissions", .str "quicksight:QueryDashboard",
      .str "quicksight:UpdateDashboard", .str "quicksight:DeleteDashboard",
      .str "quicksight:UpdateDashboardPublishedVersion",
      .str "quicksight:DescribeDashboardPermissions"])]]

/-- Model of `prepare_dashboard_definition` (`import_assets.py`, lines 219–281):
pop `AnalysisId` and `Name`, derive the dashboard id and name from them,
and attach the fixed publish options and permission grants. -/
def prepare_dashboard_definition (account_id : String) (analysis : Dict) :
    Except PyErr Dict := do
  let aidV ← dGetItem analysis "AnalysisId"
  let aid ← asStr aidV
  let d1 := dErase analysis "AnalysisId"
  let nameV ← dGetItem d1 "Name"
  let name ← asStr nameV
  let d2 := dErase d1 "Name"
  let d3 := dSet (dSet (dSet (dSet d2 "AwsAccountId" (.str account_id)) "Name"
    (.str (name ++ "_dashboard"))) "DashboardId"
    (.str (aid ++ "_dashboard"))) "DashboardPublishOptions" dashboardPublishOptions
  return dSet d3 "Permissions" dashboardPermissions

/-- Model of `import_dashboard` (`import_assets.py`, lines 284–322):
create-or-update the dashboard, then publish the version parsed from the
response's `VersionArn` via a separate
`update_dashboard_published_version` call. -/
def import_dashboard (account_id : String) (qs : QSClient) (dashboard : Dict) :
    M Dict := do
  let response ← create_or_update_asset dashboard qs.create_dashboard qs.update_dashboard
  let vArnV ← liftE (dGetItem response "VersionArn")
  let vArn ← liftE (asStr vArnV)
  let version ← liftE (get_dashboard_version vArn)
  let dbIdV ← liftE (dGetItem response "DashboardId")
  let publish_response ← qs.update_dashboard_published_version
    [("AwsAccountId", .str account_id), ("DashboardId", dbIdV),
     ("VersionNumber", .int version)]
  let _ ← liftE (dGetItem dashboard "DashboardId")
  let statusV ← liftE (dGetItem publish_response "Status")
  let arn ← liftE (dGetItem response "Arn")
  return [("id", dbIdV), ("arn", arn), ("version", .int version),
    ("publish_status", statusV)]

/-- A dict-comprehension / loop of the form
`{ds["org_id"]: ds["arn"] for ds in rows}` extending an existing map,
evaluated left to right. -/
def extendIdMap (start : Dict) (rows : List Dict) : Except PyErr Dict :=
  rows.foldlM (fun acc ds => do
    let kV ← dGetItem ds "org_id"
    let k ← asStr kV
    let v ← dGetItem ds "arn"
    return dSet acc k v) start

/-- Model of `import_dump` (`import_assets.py`, lines 330–416): validate the
presence of the `datasources`, `analysis_datasets` and `analysis`
sections (and only those three), then import data sources, security
datasets, analysis datasets, the analysis and the dashboard in order,
threading the two remap tables exactly as the source does. -/
def import_dump (account_id : String) (qs : QSClient) (assets_dump : Dict) :
    M Dict :=
  if dContains assets_dump "datasources" = false then
    mThrow (.valueError "No datasources in dump file.")
  else if dContains assets_dump "analysis_datasets" = false then
    mThrow (.valueError "No datasets in dump file.")
  else if dContains assets_dump "analysis" = false then
    mThrow (.valueError "No analysis in dump file.")
  else do
    let dsV ← liftE (dGetItem assets_dump "datasources")
    let dsList ← liftE (asList dsV)
    let datasources ← import_datasources account_id qs dsList
    let datasource_id_map ← liftE (extendIdMap [] datasources)
    let sdV ← liftE (dGetItem assets_dump "security_datasets")
    let sdList ← liftE (asList sdV)
    let security_datasets ← import_datasets account_id qs sdList datasource_id_map []
    let dataset_id_map ← liftE (extendIdMap [] security_datasets)
    let adV ← liftE (dGetItem assets_dump "analysis_datasets")
    let adList ← liftE (asList adV)
    let analysis_datasets ←
      import_datasets account_id qs adList datasource_id_map dataset_id_map
    let dataset_id_map2 ← liftE (extendIdMap dataset_id_map analysis_datasets)
    let analysisV ← liftE (dGetItem assets_dump "analysis")
    let analysisD ← liftE (asDict analysisV)
    let analysis_definition ← liftE
      (prepare_analysis_definition account_id dataset_id_map2 analysisD)
    let analysis ← import_analysis qs analysis_definition
    let dashboard_definition ← liftE
      (prepare_dashboard_definition account_id analysisD)
    let dashboard ← import_dashboard account_id qs dashboard_definition
    return [("target_account", .str account_id),
      ("assets_dump", .dict assets_dump),
      ("datasources", .list (datasources.map .dict)),
      ("security_datasets", .list (security_datasets.map .dict)),
      ("analysis_datasets", .list (analysis_datasets.map .dict)),
      ("analysis", .dict analysis),
      ("dashboard", .dict dashboard)]

/-!
## Provider models and concrete scenarios

The QuickSight control plane itself is not part of the repository.  The
clients below model it per the spec's collaborator contract (synchronous
calls that return a status code and a payload, locators for created
objects, already-exists signalled distinguishably), recording every call
in the trace so that "which create calls were issued, with which
parameters" is observable.
-/

/-- The string stored in `v`, defaulting to `""` (the provider models only
receive well-formed ids here). -/
def strOf (v : PyVal) : String :=
  match v with
  | .str s => s
  | _ => ""

/-- Locator the model source account gives its assets. -/
def srcArn (kind id : String) : String :=
  "arn:aws:quicksight:us-east-1:111111111111:" ++ kind ++ "/" ++ id

/-- Locator the model target account assigns to a newly created asset. -/
def targetArn (kind id : String) : String :=
  "arn:aws:quicksight:us-east-1:222222222222:" ++ kind ++ "/" ++ id

def fakeCreateDataSource : Dict → M Dict := fun params => do
  record "create_data_source" params
  let i := strOf (dGetD params "DataSourceId" (.str ""))
  pure [("Status", .int 201), ("Arn", .str (targetArn "datasource" i)),
    ("DataSourceId", .str i), ("CreationStatus", .str "CREATION_IN_PROGRESS")]

def fakeCreateDataSet : Dict → M Dict := fun params => do
  record "create_data_set" params
  let i := strOf (dGetD params "DataSetId" (.str ""))
  pure [("Status", .int 201), ("Arn", .str (targetArn "dataset" i)),
    ("DataSetId", .str i), ("IngestionId", .str "ingestion-1"),
    ("IngestionArn", .str (targetArn "ingestion" "ingestion-1"))]

def fakeCreateAnalysis : Dict → M Dict := fun params => do
  record "create_analysis" params
  let i := strOf (dGetD params "AnalysisId" (.str ""))
  pure [("Status", .int 202), ("Arn", .str (targetArn "analysis" i)),
    ("AnalysisId", .str i), ("CreationStatus", .str "CREATION_IN_PROGRESS")]

def fakeCreateDashboard : Dict → M Dict := fun params => do
  record "create_dashboard" params
  let i := strOf (dGetD params "DashboardId" (.str ""))
  pure [("Status", .int 202), ("Arn", .str (targetArn "dashboard" i)),
    ("DashboardId", .str i),
    ("VersionArn", .str (targetArn "dashboard" i ++ "/version/1"))]

def fakePublishDashboard : Dict → M Dict := fun params => do
  record "update_dashboard_published_version" params
  pure [("Status", .int 200)]

/-- A call the scenario does not expect: recorded, then raises. -/
def fakeUnexpected (api : String) : Dict → M Dict := fun params => do
  record api params
  mThrow (.valueError "unexpected call")

/-- Target-account client for the import scenarios: every create succeeds
with a fresh locator; describes and updates are not expected. -/
def importClient : QSClient where
  describe_analysis_definition := fakeUnexpected "describe_analysis_definition"
  describe_analysis_permissions := fakeUnexpected "describe_analysis_permissions"
  describe_data_set := fakeUnexpected "describe_data_set"
  describe_data_set_permissions := fakeUnexpected "describe_data_set_permissions"
  describe_data_source := fakeUnexpected "describe_data_source"
  describe_data_source_permissions := fakeUnexpected "describe_data_source_permissions"
  create_data_source := fakeCreateDataSource
  update_data_source := fakeUnexpected "update_data_source"
  create_data_set := fakeCreateDataSet
  update_data_set := fakeUnexpected "update_data_set"
  create_analysis := fakeCreateAnalysis
  update_analysis := fakeUnexpected "update_analysis"
  create_dashboard := fakeCreateDashboard
  update_dashboard := fakeUnexpected "update_dashboard"
  update_dashboard_published_version := fakePublishDashboard

/-- C2 scenario: the one data source of the bundle. -/
def c2Datasource : Dict :=
  [("DataSourceId", .str "src1"), ("Name", .str "warehouse"),
   ("Type", .str "POSTGRESQL"), ("DataSourceParameters", .dict []),
   ("Credentials", .null),
   ("Permissions", .list [.dict [("Principal", .str "p"), ("Actions", .list [])]]),
   ("VpcConnectionProperties", .null), ("SslProperties", .null), ("ErrorInfo", .null)]

/-- C2 scenario: the one analysis dataset, whose physical table references
the bundle's data source by its original locator. -/
def c2Dataset : Dict :=
  [("DataSetId", .str "ds1"), ("Name", .str "orders"),
   ("PhysicalTableMap", .dict [("t1", .dict [("RelationalTable", .dict
      [("DataSourceArn", .str (srcArn "datasource" "src1")),
       ("Name", .str "orders"), ("InputColumns", .list [])])])]),
   ("LogicalTableMap", .dict []), ("OutputColumns", .list []),
   ("ImportMode", .str "SPICE"), ("Permissions", .list []),
   ("RowLevelPermissionDataSet", .null), ("DataSetUsageConfiguration", .null)]

/-- C2 scenario: the analysis of the bundle. -/
def c2Analysis : Dict :=
  [("AnalysisId", .str "an1"), ("Name", .str "My analysis"),
   ("Definition", .dict [("DataSetIdentifierDeclarations", .list
      [.dict [("DataSetIdentifier", .str "orders"),
        ("DataSetArn", .str (srcArn "dataset" "ds1"))]])]),
   ("Permissions", .list [])]

/-- C2 scenario bundle: one data source, one analysis dataset referencing
it, no security datasets. -/
def c2Bundle : Dict :=
  [("analysis", .dict c2Analysis),
   ("analysis_datasets", .list [.dict c2Dataset]),
   ("security_datasets", .list []),
   ("datasources", .list [.dict c2Datasource])]

/-- The C2 import run (result and call trace). -/
def c2Run : Except PyErr Dict × List Call :=
  import_dump "222222222222" importClient c2Bundle []

/-- First call to `api` in a trace, if any. -/
def traceFind (tr : List Call) (api : String) : Option Dict :=
  match tr with
  | [] => none
  | (a, p) :: rest => if a = api then some p else traceFind rest api

/-- Every `RelationalTable.DataSourceArn` found in the physical-table map
of a parameter dictionary, in order. -/
def tableArns (p : Dict) : Except PyErr (List PyVal) := do
  let ptm ← asDict (dGetD p "PhysicalTableMap" .null)
  (dValues ptm).mapM (fun t => do
    let td ← asDict t
    let rel ← asDict (dGetD td "RelationalTable" .null)
    dGetItem rel "DataSourceArn")

/-- The `arn` fields of one section of an import result. -/
def importResultArns (r : Except PyErr Dict) (sect : String) :
    Except PyErr (List PyVal) := do
  let d ← r
  let v ← dGetItem d sect
  let xs ← asList v
  xs.mapM (fun row => do
    let rd ← asDict row
    dGetItem rd "arn")

/-- C5 scenario bundle: like the C2 bundle but with the
`security_datasets` section missing. -/
def c5Bundle : Dict :=
  [("analysis", .dict c2Analysis),
   ("analysis_datasets", .list [.dict c2Dataset]),
   ("datasources", .list [.dict c2Datasource])]

/-- The C5 import run (result and call trace). -/
def c5Run : Except PyErr Dict × List Call :=
  import_dump "222222222222" importClient c5Bundle []

/-- C1 scenario: the shared physical-table map — every dataset references
the same data source. -/
def c1PhysicalTableMap : PyVal :=
  .dict [("t1", .dict [("RelationalTable", .dict
    [("DataSourceArn", .str (srcArn "datasource" "src1")),
     ("Name", .str "tbl"), ("InputColumns", .list [])])])]

/-- C1 scenario: first analysis dataset, carrying a row-level-security
reference to `ds3`. -/
def c1Dataset1 : Dict :=
  [("DataSetId", .str "ds1"), ("Name", .str "orders"),
   ("PhysicalTableMap", c1PhysicalTableMap), ("LogicalTableMap", .dict []),
   ("OutputColumns", .list []), ("ImportMode", .str "SPICE"),
   ("RowLevelPermissionDataSet", .dict
      [("Arn", .str (srcArn "dataset" "ds3")),
       ("PermissionPolicy", .str "GRANT_ACCESS")])]

/-- C1 scenario: second analysis dataset, no row-level security. -/
def c1Dataset2 : Dict :=
  [("DataSetId", .str "ds2"), ("Name", .str "customers"),
   ("PhysicalTableMap", c1PhysicalTableMap), ("LogicalTableMap", .dict []),
   ("OutputColumns", .list []), ("ImportMode", .str "SPICE")]

/-- C1 scenario: the row-level-security dataset `ds3`. -/
def c1Dataset3 : Dict :=
  [("DataSetId", .str "ds3"), ("Name", .str "rls-rules"),
   ("PhysicalTableMap", c1PhysicalTableMap), ("LogicalTableMap", .dict []),
   ("OutputColumns", .list []), ("ImportMode", .str "SPICE")]

def fakeDescribeAnalysisDefinition : Dict → M Dict := fun params => do
  record "describe_analysis_definition" params
  pure [("Status", .int 200), ("AnalysisId", .str "an1"),
    ("Name", .str "My analysis"),
    ("Definition", .dict [("DataSetIdentifierDeclarations", .list
      [.dict [("DataSetIdentifier", .str "orders"),
        ("DataSetArn", .str (srcArn "dataset" "ds1"))],
       .dict [("DataSetIdentifier", .str "customers"),
        ("DataSetArn", .str (srcArn "dataset" "ds2"))]])])]

def fakeDescribeAnalysisPermissions : Dict → M Dict := fun params => do
  record "describe_analysis_permissions" params
  pure [("Status", .int 200), ("Permissions", .list [])]

def fakeDescribeDataSet : Dict → M Dict := fun params => do
  record "describe_data_set" params
  let i := strOf (dGetD params "DataSetId" (.str ""))
  if i = "ds1" then
    pure [("Status", .int 200), ("DataSet", .dict c1Dataset1)]
  else if i = "ds2" then
    pure [("Status", .int 200), ("DataSet", .dict c1Dataset2)]
  else if i = "ds3" then
    pure [("Status", .int 200), ("DataSet", .dict c1Dataset3)]
  else
    mThrow (.valueError "unknown dataset")

def fakeDescribeDataSetPermissions : Dict → M Dict := fun params => do
  record "describe_data_set_permissions" params
  pure [("Status", .int 200), ("Permissions", .list [])]

def fakeDescribeDataSource : Dict → M Dict := fun params => do
  record "describe_data_source" params
  let i := strOf (dGetD params "DataSourceId" (.str ""))
  if i = "src1" then
    pure [("Status", .int 200), ("DataSource", .dict
      [("DataSourceId", .str "src1"), ("Name", .str "warehouse"),
       ("Type", .str "POSTGRESQL"), ("DataSourceParameters", .dict [])])]
  else
    mThrow (.valueError "unknown datasource")

def fakeDescribeDataSourcePermissions : Dict → M Dict := fun params => do
  record "describe_data_source_permissions" params
  pure [("Status", .int 200), ("Permissions", .list [])]

/-- Source-account client for the C1 export scenario: an analysis
declaring `ds1` and `ds2`, where `ds1` carries a row-level-security
reference to `ds3`, and all three datasets reference the single data
source `src1`. -/
def exportClient : QSClient where
  describe_analysis_definition := fakeDescribeAnalysisDefinition
  describe_analysis_permissions := fakeDescribeAnalysisPermissions
  describe_data_set := fakeDescribeDataSet
  describe_data_set_permissions := fakeDescribeDataSetPermissions
  describe_data_source := fakeDescribeDataSource
  describe_data_source_permissions := fakeDescribeDataSourcePermissions
  create_data_source := fakeUnexpected "create_data_source"
  update_data_source := fakeUnexpected "update_data_source"
  create_data_set := fakeUnexpected "create_data_set"
  update_data_set := fakeUnexpected "update_data_set"
  create_analysis := fakeUnexpected "create_analysis"
  update_analysis := fakeUnexpected "update_analysis"
  create_dashboard := fakeUnexpected "create_dashboard"
  update_dashboard := fakeUnexpected "update_dashboard"
  update_dashboard_published_version := fakeUnexpected "update_dashboard_published_version"

/-- The C1 export run (result and call trace). -/
def c1Run : Except PyErr Dict × List Call :=
  get_dump (some "111111111111") (some exportClient) (some "an1") []

/-- How many entries a section of a produced bundle has. -/
def bundleSectionLength (r : Except PyErr Dict) (sect : String) :
    Except PyErr Nat := do
  let b ← r
  let v ← dGetItem b sect
  let xs ← asList v
  return xs.length

/-!
## Supporting lemmas
-/

theorem exc_bind_ok {α β : Type} (a : α) (f : α → Except PyErr β) :
    (Except.ok a >>= f) = f a := rfl

theorem exc_bind_err {α β : Type} (e : PyErr) (f : α → Except PyErr β) :
    ((Except.error e : Except PyErr α) >>= f) = .error e := rfl

theorem exc_pure_eq {α : Type} (a : α) :
    (pure a : Except PyErr α) = .ok a := rfl

theorem m_bind_apply {α β : Type} (x : M α) (f : α → M β) (t : List Call) :
    (x >>= f) t =
      match x t with
      | (.ok a, t2) => f a t2
      | (.error e, t2) => (.error e, t2) := rfl

theorem m_pure_apply {α : Type} (a : α) (t : List Call) :
    (pure a : M α) t = (.ok a, t) := rfl

theorem liftE_ok_apply {α : Type} (a : α) (t : List Call) :
    liftE (.ok a) t = (.ok a, t) := rfl

theorem liftE_err_apply {α : Type} (e : PyErr) (t : List Call) :
    (liftE (.error e) : M α) t = (.error e, t) := rfl

theorem dContains_true_iff (d : Dict) (k : String) :
    dContains d k = true ↔ ∃ v, dFind? d k = some v := by
  unfold dContains
  cases h : dFind? d k <;> simp

theorem dContains_false_iff (d : Dict) (k : String) :
    dContains d k = false ↔ dFind? d k = none := by
  unfold dContains
  cases h : dFind? d k <;> simp

theorem dGetItem_of_find (d : Dict) (k : String) (v : PyVal)
    (h : dFind? d k = some v) : dGetItem d k = .ok v := by
  unfold dGetItem
  rw [h]

theorem dGetItem_of_none (d : Dict) (k : String)
    (h : dFind? d k = none) : dGetItem d k = .error (.keyError k) := by
  unfold dGetItem
  rw [h]

theorem dFind?_set_self (d : Dict) (k : String) (v : PyVal) :
    dFind? (dSet d k v) k = some v := by
  induction d with
  | nil => simp [dSet, dFind?]
  | cons kv rest ih =>
    obtain ⟨k2, w⟩ := kv
    by_cases hk : k2 = k <;> simp [dSet, dFind?, hk, ih]

theorem dFind?_set_ne (d : Dict) (k k2 : String) (v : PyVal) (h : k2 ≠ k) :
    dFind? (dSet d k2 v) k = dFind? d k := by
  induction d with
  | nil => simp [dSet, dFind?, h]
  | cons kv rest ih =>
    obtain ⟨k3, w⟩ := kv
    by_cases hk : k3 = k2
    · subst hk
      simp [dSet, dFind?, h]
    · simp only [dSet, if_neg hk]
      by_cases hk3 : k3 = k <;> simp [dFind?, hk3, ih]

theorem dFind?_filter {p : String × PyVal → Bool} (d : Dict) (k : String) (v : PyVal)
    (h : dFind? d k = some v) (hp : p (k, v) = true) :
    dFind? (d.filter p) k = some v := by
  induction d with
  | nil => simp [dFind?] at h
  | cons kv rest ih =>
    obtain ⟨k2, w⟩ := kv
    by_cases hk : k2 = k
    · subst hk
      rw [dFind?] at h
      simp at h
      subst h
      rw [List.filter_cons_of_pos hp]
      simp [dFind?]
    · rw [dFind?] at h
      simp only [if_neg hk] at h
      cases hpw : p (k2, w) with
      | true =>
        rw [List.filter_cons_of_pos hpw, dFind?]
        simp [hk, ih h]
      | false =>
        rw [List.filter_cons_of_neg (by simp [hpw])]
        exact ih h

theorem pySplit_ne_nil (sep : Char) (s : List Char) : pySplit sep s ≠ [] := by
  cases s with
  | nil => simp [pySplit]
  | cons c rest =>
    simp only [pySplit]
    cases h : pySplit sep rest with
    | nil => simp
    | cons w ws =>
      by_cases hc : c = sep <;> simp [hc]

theorem pySplit_no_sep (sep : Char) (s : List Char) (h : sep ∉ s) :
    pySplit sep s = [s] := by
  induction s with
  | nil => simp [pySplit]
  | cons c rest ih =>
    simp only [List.mem_cons, not_or] at h
    have hcs : ¬ c = sep := fun hc => h.1 hc.symm
    simp only [pySplit, ih h.2]
    simp [hcs]

theorem pySplit_append (sep : Char) (xs ys : List Char) :
    pySplit sep (xs ++ sep :: ys) = pySplit sep xs ++ pySplit sep ys := by
  induction xs with
  | nil =>
    simp only [List.nil_append, pySplit]
    cases h : pySplit sep ys with
    | nil => exact absurd h (pySplit_ne_nil sep ys)
    | cons w ws => simp
  | cons c rest ih =>
    have hstep : pySplit sep (c :: (rest ++ sep :: ys)) =
        match pySplit sep (rest ++ sep :: ys) with
        | [] => [[]]
        | w :: ws => if c = sep then [] :: w :: ws else (c :: w) :: ws := rfl
    rw [List.cons_append, hstep, ih]
    cases h : pySplit sep rest with
    | nil => exact absurd h (pySplit_ne_nil sep rest)
    | cons w ws =>
      by_cases hc : c = sep <;> simp [pySplit, h, hc]

theorem string_eq_of_data {a b : String} (h : a.data = b.data) : a = b :=
  congrArg String.mk h

theorem getLastD_append_singleton {α : Type} (l : List α) (a d : α) :
    (l ++ [a]).getLastD d = a := by
  rw [List.getLastD_eq_getLast?]
  simp

/-- The chunk after the last separator: splitting `xs ++ sep :: ys` with
`ys` separator-free ends in the chunk `ys`. -/
theorem pySplit_getLastD (sep : Char) (xs ys : List Char) (h : sep ∉ ys) :
    (pySplit sep (xs ++ sep :: ys)).getLastD [] = ys := by
  rw [pySplit_append, pySplit_no_sep sep ys h, getLastD_append_singleton]

/-- Splitting `a ++ sep :: r` with `a` separator-free peels off the chunk
`a`. -/
theorem pySplit_cons_of_no_sep (sep : Char) (a r : List Char) (h : sep ∉ a) :
    pySplit sep (a ++ sep :: r) = a :: pySplit sep r := by
  rw [pySplit_append, pySplit_no_sep sep a h]
  rfl

theorem asDict_ok_eq {v : PyVal} {d : Dict} (h : asDict v = .ok d) : v = .dict d := by
  cases v <;> simp_all [asDict]

theorem asStr_ok_eq {v : PyVal} {s : String} (h : asStr v = .ok s) : v = .str s := by
  cases v <;> simp_all [asStr]

theorem asList_ok_eq {v : PyVal} {l : List PyVal} (h : asList v = .ok l) :
    v = .list l := by
  cases v <;> simp_all [asList]

theorem dGetItem_ok_find {d : Dict} {k : String} {v : PyVal}
    (h : dGetItem d k = .ok v) : dFind? d k = some v := by
  unfold dGetItem at h
  cases hf : dFind? d k with
  | none => rw [hf] at h; exact absurd h (by simp)
  | some w => rw [hf] at h; simp at h; rw [h]

theorem mapM_idOf (id_key : String) (xs : List PyVal)
    (h : ∀ a ∈ xs, ∃ d, a = .dict d) :
    (xs.mapM (fun a => do
      let d ← asDict a
      return dGetD d id_key .null) : Except PyErr (List PyVal)) =
      .ok (xs.map (idOf id_key)) := by
  induction xs with
  | nil => rfl
  | cons a rest ih =>
    obtain ⟨d, hd⟩ := h a (by simp)
    subst hd
    rw [List.mapM_cons]
    have hrest := ih (fun a2 ha2 => h a2 (by simp [ha2]))
    have hstep : (do
        let d2 ← asDict (PyVal.dict d)
        pure (dGetD d2 id_key PyVal.null) : Except PyErr PyVal) =
        .ok (dGetD d id_key .null) := rfl
    rw [hstep, exc_bind_ok, hrest, exc_bind_ok]
    rfl

theorem filterMapKey_all_absent (k : String) (defs : List Dict)
    (h : ∀ d ∈ defs, dContains d k = false) :
    filterMapKey k (defs.map PyVal.dict) = .ok [] := by
  induction defs with
  | nil => rfl
  | cons d rest ih =>
    have hd := h d (by simp)
    have hrest := ih (fun d2 hd2 => h d2 (by simp [hd2]))
    simp [filterMapKey, asDict, exc_bind_ok, hd, hrest]

theorem mapRelationalTables_error (m : Dict) (l : List (String × PyVal))
    (hwf : ∀ kv ∈ l, tableWF kv)
    (hmiss : ∃ kv ∈ l, ∃ td, kv.2 = .dict td ∧ dContains td "RelationalTable" = false) :
    ∃ k, mapRelationalTables m l = .error (.keyError k) := by
  induction l with
  | nil =>
    obtain ⟨kv, hmem, _⟩ := hmiss
    simp at hmem
  | cons kv rest ih =>
    obtain ⟨k0, v0⟩ := kv
    obtain ⟨td, hv0, hrel⟩ := hwf (k0, v0) (by simp)
    simp only at hv0
    subst hv0
    cases hfr : dFind? td "RelationalTable" with
    | none =>
      refine ⟨"RelationalTable", ?_⟩
      simp [mapRelationalTables, asDict, exc_bind_ok,
        dGetItem_of_none _ _ hfr, exc_bind_err]
    | some relV =>
      obtain ⟨rel, hrelV, arn, harn⟩ := hrel relV hfr
      subst hrelV
      cases hmap : dFind? m (get_id_from_arn arn) with
      | none =>
        refine ⟨get_id_from_arn arn, ?_⟩
        simp [mapRelationalTables, asDict, exc_bind_ok, dGetItem_of_find _ _ _ hfr,
          dGetItem_of_find _ _ _ harn, asStr, dGetItem_of_none _ _ hmap, exc_bind_err]
      | some newArn =>
        have hmiss2 : ∃ kv ∈ rest, ∃ td2, kv.2 = .dict td2 ∧
            dContains td2 "RelationalTable" = false := by
          obtain ⟨kv2, hkv2mem, td2, hkv2, hc⟩ := hmiss
          rcases List.mem_cons.mp hkv2mem with heq | hmem
          · exfalso
            subst heq
            simp only at hkv2
            have : td = td2 := by
              injection hkv2
            subst this
            rw [dContains_false_iff] at hc
            rw [hc] at hfr
            exact absurd hfr (by simp)
          · exact ⟨kv2, hmem, td2, hkv2, hc⟩
        obtain ⟨k, hk⟩ := ih (fun kv2 h2 => hwf kv2 (by simp [h2])) hmiss2
        refine ⟨k, ?_⟩
        simp [mapRelationalTables, asDict, exc_bind_ok, dGetItem_of_find _ _ _ hfr,
          dGetItem_of_find _ _ _ harn, asStr, dGetItem_of_find _ _ _ hmap, hk,
          exc_bind_err]

theorem mapRelationalTables_ok_forall (m : Dict) (l : List (String × PyVal))
    (res : List (String × PyVal)) (h : mapRelationalTables m l = .ok res) :
    ∀ kv ∈ l, ∃ td rel arn, kv.2 = .dict td ∧
      dFind? td "RelationalTable" = some (.dict rel) ∧
      dFind? rel "DataSourceArn" = some (.str arn) ∧
      dContains m (get_id_from_arn arn) = true := by
  induction l generalizing res with
  | nil => simp
  | cons kv rest ih =>
    obtain ⟨k0, v0⟩ := kv
    rw [mapRelationalTables] at h
    cases hd : asDict v0 with
    | error e => rw [hd, exc_bind_err] at h; exact absurd h (by simp)
    | ok td =>
      rw [hd, exc_bind_ok] at h
      cases h1 : dGetItem td "RelationalTable" with
      | error e => rw [h1, exc_bind_err] at h; exact absurd h (by simp)
      | ok relV =>
        rw [h1, exc_bind_ok] at h
        cases h2 : asDict relV with
        | error e => rw [h2, exc_bind_err] at h; exact absurd h (by simp)
        | ok rel =>
          rw [h2, exc_bind_ok] at h
          cases h3 : dGetItem rel "DataSourceArn" with
          | error e => rw [h3, exc_bind_err] at h; exact absurd h (by simp)
          | ok arnV =>
            rw [h3, exc_bind_ok] at h
            cases h4 : asStr arnV with
            | error e => rw [h4, exc_bind_err] at h; exact absurd h (by simp)
            | ok arn =>
              rw [h4, exc_bind_ok] at h
              cases h5 : dGetItem m (get_id_from_arn arn) with
              | error e => rw [h5, exc_bind_err] at h; exact absurd h (by simp)
              | ok newArn =>
                rw [h5, exc_bind_ok] at h
                cases h6 : mapRelationalTables m rest with
                | error e => rw [h6, exc_bind_err] at h; exact absurd h (by simp)
                | ok tail =>
                  intro kv2 hkv2
                  rcases List.mem_cons.mp hkv2 with heq | hmem
                  · subst heq
                    refine ⟨td, rel, arn, asDict_ok_eq hd, ?_, ?_, ?_⟩
                    · rw [dGetItem_ok_find h1, asDict_ok_eq h2]
                    · rw [← asStr_ok_eq h4]
                      exact dGetItem_ok_find h3
                    · rw [dContains_true_iff]
                      exact ⟨newArn, dGetItem_ok_find h5⟩
                  · exact ih tail h6 kv2 hmem

/-!
## Claim theorems
-/

/-- C7: for every locator string of the form
`scheme:partition:service:region:account:kind/identifier` (the first five
segments colon-free, the identifier slash-free), `get_id_from_arn` returns
the substring after the final `/` and `get_account_id_from_arn` returns the
fifth colon-delimited segment. -/
theorem C7_arn_extraction
    (scheme part service region account kind ident : String)
    (h1 : ':' ∉ scheme.data) (h2 : ':' ∉ part.data) (h3 : ':' ∉ service.data)
    (h4 : ':' ∉ region.data) (h5 : ':' ∉ account.data) (h6 : '/' ∉ ident.data) :
    get_id_from_arn
        (scheme ++ ":" ++ part ++ ":" ++ service ++ ":" ++ region ++ ":" ++
          account ++ ":" ++ kind ++ "/" ++ ident) = ident ∧
    get_account_id_from_arn
        (scheme ++ ":" ++ part ++ ":" ++ service ++ ":" ++ region ++ ":" ++
          account ++ ":" ++ kind ++ "/" ++ ident) = .ok account := by
  constructor
  · apply string_eq_of_data
    show (pySplit '/' (scheme ++ ":" ++ part ++ ":" ++ service ++ ":" ++ region ++ ":" ++
        account ++ ":" ++ kind ++ "/" ++ ident).data).getLastD [] = ident.data
    have hdata : (scheme ++ ":" ++ part ++ ":" ++ service ++ ":" ++ region ++ ":" ++
        account ++ ":" ++ kind ++ "/" ++ ident).data =
        (scheme ++ ":" ++ part ++ ":" ++ service ++ ":" ++ region ++ ":" ++
          account ++ ":" ++ kind).data ++ '/' :: ident.data := by
      simp [List.append_assoc]
    rw [hdata, pySplit_getLastD _ _ _ h6]
  · show get_account_id_from_arn _ = .ok account
    unfold get_account_id_from_arn
    have hdata : (scheme ++ ":" ++ part ++ ":" ++ service ++ ":" ++ region ++ ":" ++
        account ++ ":" ++ kind ++ "/" ++ ident).data =
        scheme.data ++ ':' :: (part.data ++ ':' :: (service.data ++ ':' ::
          (region.data ++ ':' :: (account.data ++ ':' ::
            (kind.data ++ '/' :: ident.data))))) := by
      simp [List.append_assoc]
    rw [hdata, pySplit_cons_of_no_sep _ _ _ h1, pySplit_cons_of_no_sep _ _ _ h2,
      pySplit_cons_of_no_sep _ _ _ h3, pySplit_cons_of_no_sep _ _ _ h4,
      pySplit_cons_of_no_sep _ _ _ h5]
    rfl

/-- C6: applied to dataset definitions none of which has a
`RowLevelPermissionDataSet` field, the security-dataset identifier
extraction returns the empty set and does not raise. -/
theorem C6_rls_extraction_empty (defs : List Dict)
    (h : ∀ d ∈ defs, dContains d "RowLevelPermissionDataSet" = false) :
    get_rls_dataset_ids (defs.map PyVal.dict) = .ok [] := by
  have hf := filterMapKey_all_absent "RowLevelPermissionDataSet" defs h
  simp [get_rls_dataset_ids, hf, exc_bind_ok, exc_pure_eq]

/-- C6 witness: two concrete dataset definitions without a
row-level-security field. -/
theorem C6_rls_extraction_empty_witness :
    get_rls_dataset_ids
      [.dict [("DataSetId", .str "d1"), ("Name", .str "first")], .dict []] = .ok [] := by
  have h := C6_rls_extraction_empty
    [[("DataSetId", .str "d1"), ("Name", .str "first")], []]
    (by
      intro d hd
      simp at hd
      rcases hd with h1 | h1 <;> subst h1 <;> rfl)
  simpa using h

/-- C8: whenever `dump_data_source` produces a record for the export
bundle, that record's `Credentials` field is `None`, whatever the input
definition and permissions contained. -/
theorem C8_credentials_null (definition permissions : PyVal) (r : Dict)
    (h : dump_data_source definition permissions = .ok r) :
    dFind? r "Credentials" = some .null := by
  unfold dump_data_source at h
  cases hd : asDict definition with
  | error e => rw [hd, exc_bind_err] at h; exact absurd h (by simp)
  | ok d =>
    rw [hd, exc_bind_ok] at h
    cases h1 : dGetItem d "DataSourceId" with
    | error e => rw [h1, exc_bind_err] at h; exact absurd h (by simp)
    | ok dsid =>
      rw [h1, exc_bind_ok] at h
      cases h2 : dGetItem d "Name" with
      | error e => rw [h2, exc_bind_err] at h; exact absurd h (by simp)
      | ok name =>
        rw [h2, exc_bind_ok] at h
        cases h3 : dGetItem d "Type" with
        | error e => rw [h3, exc_bind_err] at h; exact absurd h (by simp)
        | ok ty =>
          rw [h3, exc_bind_ok] at h
          cases h4 : dGetItem d "DataSourceParameters" with
          | error e => rw [h4, exc_bind_err] at h; exact absurd h (by simp)
          | ok params =>
            rw [h4, exc_bind_ok] at h
            simp only [exc_pure_eq, Except.ok.injEq] at h
            subst h
            rfl

/-- C8 witness: a concrete data-source definition whose `Credentials`
field in the dumped record is `None` even though the input carried a
credential value. -/
theorem C8_credentials_null_witness :
    dFind?
      [("DataSourceId", .str "src1"), ("Name", .str "db"), ("Type", .str "POSTGRESQL"),
        ("DataSourceParameters", .dict []), ("Credentials", .null),
        ("Permissions", .list []), ("VpcConnectionProperties", .null),
        ("SslProperties", .null), ("ErrorInfo", .null)] "Credentials" = some .null := by
  exact C8_credentials_null
    (.dict [("DataSourceId", .str "src1"), ("Name", .str "db"),
      ("Type", .str "POSTGRESQL"), ("DataSourceParameters", .dict []),
      ("Credentials", .str "secret")])
    (.list [])
    _
    rfl

/-- C1: in the export scenario (analysis declaring `ds1` and `ds2`, `ds1`
carrying a row-level-security reference to `ds3`, all three datasets on
the single data source `src1`), `get_dump` produces 2 analysis datasets
and 1 data source but 0 security datasets — not the 1 the claim and spec
require — because line 341 of `export_assets.py` applies
`get_rls_dataset_ids` to the `{"definition", "permissions"}` wrapper rows
instead of the inner definitions; applied to the inner definitions the
extraction does find `ds3` (last conjunct). -/
theorem C1_get_dump_security_datasets_bug :
    bundleSectionLength c1Run.1 "analysis_datasets" = .ok 2 ∧
    bundleSectionLength c1Run.1 "security_datasets" = .ok 0 ∧
    bundleSectionLength c1Run.1 "datasources" = .ok 1 ∧
    get_rls_dataset_ids [.dict c1Dataset1, .dict c1Dataset2] = .ok ["ds3"] :=
  ⟨rfl, rfl, rfl, rfl⟩

/-- C2: importing the bundle with one data source, one analysis dataset
referencing it and no security datasets issues a dataset create call
whose only physical-table data-source locator equals the locator the
provider returned for the freshly created data source (also recorded in
the import result), not the original locator from the bundle. -/
theorem C2_import_rewrites_datasource_reference :
    (match traceFind c2Run.2 "create_data_set" with
      | some p => tableArns p
      | none => .error .indexError) =
      .ok [.str (targetArn "datasource" "src1-imported")] ∧
    importResultArns c2Run.1 "datasources" =
      .ok [.str (targetArn "datasource" "src1-imported")] ∧
    targetArn "datasource" "src1-imported" ≠ srcArn "datasource" "src1" :=
  ⟨rfl, rfl, by decide⟩

/-- C5 (amended: only the `datasources`, `analysis_datasets` and
`analysis` sections are validated up front): a bundle missing one of
those three sections makes `import_dump` raise a validation error before
any provider call is made; a missing `security_datasets` section is not
caught by the validation (see the counterexample). -/
theorem C5_import_validation_checked_sections (account_id : String) (qs : QSClient)
    (assets_dump : Dict) (t : List Call)
    (h : dContains assets_dump "datasources" = false ∨
      dContains assets_dump "analysis_datasets" = false ∨
      dContains assets_dump "analysis" = false) :
    ∃ m, import_dump account_id qs assets_dump t = (.error (.valueError m), t) ∧
      (m = "No datasources in dump file." ∨ m = "No datasets in dump file." ∨
        m = "No analysis in dump file.") := by
  by_cases h1 : dContains assets_dump "datasources" = false
  · refine ⟨"No datasources in dump file.", ?_, Or.inl rfl⟩
    unfold import_dump
    rw [if_pos h1]
    rfl
  · by_cases h2 : dContains assets_dump "analysis_datasets" = false
    · refine ⟨"No datasets in dump file.", ?_, Or.inr (Or.inl rfl)⟩
      unfold import_dump
      rw [if_neg h1, if_pos h2]
      rfl
    · have h3 : dContains assets_dump "analysis" = false := by tauto
      refine ⟨"No analysis in dump file.", ?_, Or.inr (Or.inr rfl)⟩
      unfold import_dump
      rw [if_neg h1, if_neg h2, if_pos h3]
      rfl

/-- C5 counterexample: the bundle missing only its `security_datasets`
section is not rejected up front — `import_dump` first creates the data
source (the trace holds one `create_data_source` call) and then fails
with a `KeyError`, not a validation error, so the claim fails for this
required top-level section. -/
theorem C5_counterexample :
    dContains c5Bundle "security_datasets" = false ∧
    c5Run.1 = .error (.keyError "security_datasets") ∧
    c5Run.2.map Prod.fst = ["create_data_source"] :=
  ⟨rfl, rfl, rfl⟩

/-- C5 witness: the validation theorem applied to a concrete bundle with
no `analysis` section. -/
theorem C5_import_validation_checked_sections_witness :
    ∃ m, import_dump "222222222222" importClient
        [("datasources", .list []), ("analysis_datasets", .list [])] [] =
        (.error (.valueError m), []) ∧
      (m = "No datasources in dump file." ∨ m = "No datasets in dump file." ∨
        m = "No analysis in dump file.") :=
  C5_import_validation_checked_sections "222222222222" importClient
    [("datasources", .list []), ("analysis_datasets", .list [])] []
    (Or.inr (Or.inr rfl))

/-- C10: `prepare_dataset_definition` raises a key-lookup error when some
physical-table entry has no `RelationalTable`, or when the
row-level-security reference names an id absent from the dataset remap
table; and the data-source rewrite succeeds only when every
physical-table entry is a relational table whose data-source id is in the
data-source remap table. -/
theorem C10_prepare_dataset_key_errors (account_id : String)
    (dataset datasource_id_map dataset_id_map : Dict) (name : String)
    (ptm : List (String × PyVal))
    (hname : dFind? dataset "Name" = some (.str name))
    (hptm : dFind? dataset "PhysicalTableMap" = some (.dict ptm)) :
    ((∀ kv ∈ ptm, tableWF kv) →
      (∃ kv ∈ ptm, ∃ td, kv.2 = .dict td ∧ dContains td "RelationalTable" = false) →
      ∃ k, prepare_dataset_definition account_id dataset datasource_id_map
        dataset_id_map = .error (.keyError k))
    ∧ (∀ ptm2 rls arn, mapRelationalTables datasource_id_map ptm = .ok ptm2 →
        dFind? dataset "RowLevelPermissionDataSet" = some (.dict rls) →
        dFind? rls "Arn" = some (.str arn) →
        dContains dataset_id_map (get_id_from_arn arn) = false →
        prepare_dataset_definition account_id dataset datasource_id_map
          dataset_id_map = .error (.keyError (get_id_from_arn arn)))
    ∧ (∀ d, prepare_dataset_definition account_id dataset datasource_id_map
          dataset_id_map = .ok d →
        ∀ kv ∈ ptm, ∃ td rel arn2, kv.2 = .dict td ∧
          dFind? td "RelationalTable" = some (.dict rel) ∧
          dFind? rel "DataSourceArn" = some (.str arn2) ∧
          dContains datasource_id_map (get_id_from_arn arn2) = true) := by
  have hfilter : dFind?
      (dataset.filter (fun kv => (kv.1 != "OutputColumns") && isNotNone kv.2))
      "PhysicalTableMap" = some (.dict ptm) :=
    dFind?_filter dataset "PhysicalTableMap" (.dict ptm) hptm rfl
  have hfindA : dFind?
      (dSet (dSet (dataset.filter (fun kv => (kv.1 != "OutputColumns") && isNotNone kv.2))
        "Name" (.str (name ++ IMPORT_SUFFIX))) "AwsAccountId" (.str account_id))
      "PhysicalTableMap" = some (.dict ptm) := by
    rw [dFind?_set_ne _ _ _ _ (by decide), dFind?_set_ne _ _ _ _ (by decide)]
    exact hfilter
  refine ⟨?_, ?_, ?_⟩
  · intro hwf hmiss
    obtain ⟨k, hk⟩ := mapRelationalTables_error datasource_id_map ptm hwf hmiss
    refine ⟨k, ?_⟩
    simp only [prepare_dataset_definition]
    rw [dGetItem_of_find _ _ _ hname, exc_bind_ok,
      show asStr (.str name) = .ok name from rfl, exc_bind_ok,
      dGetItem_of_find _ _ _ hfindA, exc_bind_ok,
      show asDict (.dict ptm) = .ok ptm from rfl, exc_bind_ok,
      hk, exc_bind_err]
  · intro ptm2 rls arn hmap2 hrls harn hdm
    have hrlsFilter : dFind?
        (dataset.filter (fun kv => (kv.1 != "OutputColumns") && isNotNone kv.2))
        "RowLevelPermissionDataSet" = some (.dict rls) :=
      dFind?_filter dataset "RowLevelPermissionDataSet" (.dict rls) hrls rfl
    have hfindB : dFind?
        (dSet (dSet (dSet (dataset.filter
            (fun kv => (kv.1 != "OutputColumns") && isNotNone kv.2))
          "Name" (.str (name ++ IMPORT_SUFFIX))) "AwsAccountId" (.str account_id))
          "PhysicalTableMap" (.dict ptm2))
        "RowLevelPermissionDataSet" = some (.dict rls) := by
      rw [dFind?_set_ne _ _ _ _ (by decide), dFind?_set_ne _ _ _ _ (by decide),
        dFind?_set_ne _ _ _ _ (by decide)]
      exact hrlsFilter
    have hcontB := (dContains_true_iff _ "RowLevelPermissionDataSet").mpr ⟨_, hfindB⟩
    have hcontArn := (dContains_true_iff rls "Arn").mpr ⟨_, harn⟩
    have hdmFind := (dContains_false_iff _ _).mp hdm
    simp only [prepare_dataset_definition]
    rw [dGetItem_of_find _ _ _ hname, exc_bind_ok,
      show asStr (.str name) = .ok name from rfl, exc_bind_ok,
      dGetItem_of_find _ _ _ hfindA, exc_bind_ok,
      show asDict (.dict ptm) = .ok ptm from rfl, exc_bind_ok,
      hmap2, exc_bind_ok]
    rw [hcontB]
    simp only [if_true]
    rw [dGetItem_of_find _ _ _ hfindB, exc_bind_ok,
      show asDict (.dict rls) = .ok rls from rfl, exc_bind_ok]
    rw [hcontArn]
    simp only [if_true]
    rw [dGetItem_of_find _ _ _ harn, exc_bind_ok,
      show asStr (.str arn) = .ok arn from rfl, exc_bind_ok,
      dGetItem_of_none _ _ hdmFind, exc_bind_err]
  · intro d h
    simp only [prepare_dataset_definition] at h
    rw [dGetItem_of_find _ _ _ hname, exc_bind_ok,
      show asStr (.str name) = .ok name from rfl, exc_bind_ok,
      dGetItem_of_find _ _ _ hfindA, exc_bind_ok,
      show asDict (.dict ptm) = .ok ptm from rfl, exc_bind_ok] at h
    cases hres : mapRelationalTables datasource_id_map ptm with
    | error e => rw [hres, exc_bind_err] at h; exact absurd h (by simp)
    | ok res => exact mapRelationalTables_ok_forall datasource_id_map ptm res hres

/-- C10 witness: a concrete dataset whose single physical table lacks
`RelationalTable` yields a key-lookup error. -/
theorem C10_prepare_dataset_key_errors_witness :
    ∃ k, prepare_dataset_definition "222222222222"
      [("DataSetId", .str "d1"), ("Name", .str "orders"),
        ("PhysicalTableMap", .dict [("t1", .dict [("CustomSql", .dict [])])])]
      [] [] = .error (.keyError k) :=
  (C10_prepare_dataset_key_errors "222222222222"
    [("DataSetId", .str "d1"), ("Name", .str "orders"),
      ("PhysicalTableMap", .dict [("t1", .dict [("CustomSql", .dict [])])])]
    [] [] "orders" [("t1", .dict [("CustomSql", .dict [])])] rfl rfl).1
    (by
      intro kv hkv
      simp at hkv
      subst hkv
      exact ⟨[("CustomSql", .dict [])], rfl, by
        intro relV hrel
        simp [dFind?] at hrel⟩)
    ⟨("t1", .dict [("CustomSql", .dict [])]), by simp, [("CustomSql", .dict [])],
      rfl, rfl⟩

/-- C4: with a successful search response, the single-result lookup
raises a not-found error on zero matches, a cardinality error on two or
more matches, and returns the single match's identifier (its `id_key`
field) on exactly one match. -/
theorem C4_find_asset_id_cardinality (account_id : String)
    (search_fn : Dict → Except PyErr Dict) (filters : PyVal)
    (lookup_field id_key : String) (response : Dict) (n : Int)
    (hresp : search_fn [("AwsAccountId", .str account_id), ("Filters", filters),
        ("MaxResults", .int 10)] = .ok response)
    (hn : dFind? response "Status" = some (.int n))
    (h200 : 200 ≤ n) (h300 : n < 300) :
    (dGetD response lookup_field (.list []) = .list [] →
      find_asset_id account_id search_fn filters lookup_field id_key =
        .error (.valueError "No assets found for filters"))
    ∧ (∀ assets, dFind? response lookup_field = some (.list assets) →
        (∀ a ∈ assets, ∃ d, a = .dict d) → 2 ≤ assets.length →
        find_asset_id account_id search_fn filters lookup_field id_key =
          .error (.valueError "Multiple assets found for filters"))
    ∧ (∀ ad, dFind? response lookup_field = some (.list [.dict ad]) →
        find_asset_id account_id search_fn filters lookup_field id_key =
          .ok (dGetD ad id_key .null)) := by
  have hstat : getStatus response = .ok n := by
    unfold getStatus
    rw [hn]
  have hcond : ¬ (n < 200 ∨ n ≥ 300) := by omega
  have hfaBC : ∀ assets, dFind? response lookup_field = some (.list assets) →
      assets ≠ [] →
      find_assets account_id search_fn filters lookup_field = .ok (.list assets) := by
    intro assets hfind hne
    unfold find_assets
    rw [hresp, exc_bind_ok, hstat, exc_bind_ok, if_neg hcond]
    have hget : dGetD response lookup_field (.list []) = .list assets := by
      unfold dGetD
      rw [hfind]
    rw [hget]
    rw [show pyLen (.list assets) = .ok (assets.length : Int) from rfl, exc_bind_ok]
    rw [if_neg (by simp [hne])]
    exact dGetItem_of_find _ _ _ hfind
  have hidsBC : ∀ assets, dFind? response lookup_field = some (.list assets) →
      assets ≠ [] → (∀ a ∈ assets, ∃ d, a = .dict d) →
      find_asset_ids account_id search_fn filters lookup_field id_key =
        .ok (assets.map (idOf id_key)) := by
    intro assets hfind hne hdicts
    unfold find_asset_ids
    rw [hfaBC assets hfind hne, exc_bind_ok,
      show asList (.list assets) = .ok assets from rfl, exc_bind_ok,
      mapM_idOf id_key assets hdicts]
  refine ⟨?_, ?_, ?_⟩
  · intro h0
    have hfaA : find_assets account_id search_fn filters lookup_field =
        .error (.valueError "No assets found for filters") := by
      unfold find_assets
      rw [hresp, exc_bind_ok, hstat, exc_bind_ok, if_neg hcond, h0]
      rfl
    unfold find_asset_id find_asset_ids
    rw [hfaA, exc_bind_err, exc_bind_err]
  · intro assets hfind hdicts hlen
    have hne : assets ≠ [] := by
      intro h
      subst h
      simp at hlen
    unfold find_asset_id
    rw [hidsBC assets hfind hne hdicts, exc_bind_ok]
    rw [if_pos (by simp; omega)]
  · intro ad hfind
    unfold find_asset_id
    rw [hidsBC [.dict ad] hfind (by simp) (by simp), exc_bind_ok]
    rw [if_neg (by simp)]
    rfl

/-- C4 witness: all three cardinalities evaluated against concrete search
responses. -/
theorem C4_find_asset_id_cardinality_witness :
    (find_asset_id "acct" (fun _ => .ok [("Status", .int 200)])
        (.dict [("Name", .str "x")]) "AnalysisSummaryList" "AnalysisId" =
      .error (.valueError "No assets found for filters")) ∧
    (find_asset_id "acct"
        (fun _ => .ok [("Status", .int 200),
          ("AnalysisSummaryList", .list [.dict [("AnalysisId", .str "a1")],
            .dict [("AnalysisId", .str "a2")]])])
        (.dict [("Name", .str "x")]) "AnalysisSummaryList" "AnalysisId" =
      .error (.valueError "Multiple assets found for filters")) ∧
    (find_asset_id "acct"
        (fun _ => .ok [("Status", .int 200),
          ("AnalysisSummaryList", .list [.dict [("AnalysisId", .str "a1")]])])
        (.dict [("Name", .str "x")]) "AnalysisSummaryList" "AnalysisId" =
      .ok (.str "a1")) := by
  refine ⟨?_, ?_, ?_⟩
  · exact (C4_find_asset_id_cardinality "acct" (fun _ => .ok [("Status", .int 200)])
      (.dict [("Name", .str "x")]) "AnalysisSummaryList" "AnalysisId"
      [("Status", .int 200)] 200 rfl rfl (by omega) (by omega)).1 rfl
  · exact (C4_find_asset_id_cardinality "acct"
      (fun _ => .ok [("Status", .int 200),
        ("AnalysisSummaryList", .list [.dict [("AnalysisId", .str "a1")],
          .dict [("AnalysisId", .str "a2")]])])
      (.dict [("Name", .str "x")]) "AnalysisSummaryList" "AnalysisId"
      [("Status", .int 200),
        ("AnalysisSummaryList", .list [.dict [("AnalysisId", .str "a1")],
          .dict [("AnalysisId", .str "a2")]])] 200 rfl rfl (by omega) (by omega)).2.1
      [.dict [("AnalysisId", .str "a1")], .dict [("AnalysisId", .str "a2")]] rfl
      (by
        intro a ha
        simp at ha
        rcases ha with h | h <;> exact ⟨_, h⟩)
      (by simp)
  · exact (C4_find_asset_id_cardinality "acct"
      (fun _ => .ok [("Status", .int 200),
        ("AnalysisSummaryList", .list [.dict [("AnalysisId", .str "a1")]])])
      (.dict [("Name", .str "x")]) "AnalysisSummaryList" "AnalysisId"
      [("Status", .int 200),
        ("AnalysisSummaryList", .list [.dict [("AnalysisId", .str "a1")]])] 200
      rfl rfl (by omega) (by omega)).2.2 [("AnalysisId", .str "a1")] rfl

/-- C3 (amended: the parameter dictionary must contain a `Permissions`
entry, since `create_or_update_asset` pops it unconditionally): when the
create call raises the already-exists error, the update function is
called with the parameters minus `Permissions` and minus `Type` when
present; when the create call raises any other error, that error
propagates unchanged and the update function is never consulted. -/
theorem C3_create_or_update_routing (params : Dict) (create_fn : Dict → M Dict)
    (hP : dContains params "Permissions" = true) :
    (∀ r update_fn t,
      create_fn params = mThrow (.clientError "ResourceExistsException" r) →
      create_or_update_asset params create_fn update_fn t =
        (update_fn (updateParams params) >>= fun resp => liftE (checkStatus resp)) t)
    ∧ (∀ e, isAlreadyExists e = false →
      create_fn params = mThrow e →
      ∀ update_fn t,
        create_or_update_asset params create_fn update_fn t = (.error e, t)) := by
  obtain ⟨v, hv⟩ := (dContains_true_iff params "Permissions").mp hP
  have hpop : dPop params "Permissions" = .ok (dErase params "Permissions") := by
    unfold dPop
    rw [hv]
  constructor
  · intro r update_fn t hc
    show (match create_fn params t with
      | (.ok response, t2) => liftE (checkStatus response) t2
      | (.error (.clientError code resp), t2) =>
        if code = "ResourceExistsException" then
          (do
            let p1 ← liftE (dPop params "Permissions")
            let p2 := if dContains p1 "Type" then dErase p1 "Type" else p1
            let response ← update_fn p2
            liftE (checkStatus response) : M Dict) t2
        else
          (.error (.clientError code resp), t2)
      | (.error e, t2) => (.error e, t2)) = _
    rw [hc]
    show (if "ResourceExistsException" = "ResourceExistsException" then _ else _) = _
    rw [if_pos rfl]
    rw [show (do
        let p1 ← liftE (dPop params "Permissions")
        let p2 := if dContains p1 "Type" then dErase p1 "Type" else p1
        let response ← update_fn p2
        liftE (checkStatus response) : M Dict) =
      (liftE (dPop params "Permissions") >>= fun p1 =>
        update_fn (if dContains p1 "Type" then dErase p1 "Type" else p1) >>= fun resp =>
          liftE (checkStatus resp)) from rfl]
    rw [hpop, m_bind_apply, liftE_ok_apply]
    rfl
  · intro e he hc update_fn t
    show (match create_fn params t with
      | (.ok response, t2) => liftE (checkStatus response) t2
      | (.error (.clientError code resp), t2) =>
        if code = "ResourceExistsException" then
          (do
            let p1 ← liftE (dPop params "Permissions")
            let p2 := if dContains p1 "Type" then dErase p1 "Type" else p1
            let response ← update_fn p2
            liftE (checkStatus response) : M Dict) t2
        else
          (.error (.clientError code resp), t2)
      | (.error e2, t2) => (.error e2, t2)) = _
    rw [hc]
    cases e with
    | clientError code resp =>
      have hcode : ¬ code = "ResourceExistsException" := by
        simpa [isAlreadyExists] using he
      show (if code = "ResourceExistsException" then _ else _) = _
      rw [if_neg hcode]
    | valueError m => rfl
    | keyError k => rfl
    | indexError => rfl
    | typeError => rfl
    | attributeError => rfl

/-- C3 counterexample: with a parameter dictionary lacking `Permissions`
and a provider reporting already-exists, the call raises a `KeyError`
instead of routing to the update function — so the claim does not hold
for every parameter dictionary. -/
theorem C3_counterexample :
    create_or_update_asset [("AnalysisId", .str "a1")]
      (fun _ => mThrow (.clientError "ResourceExistsException" []))
      (fun _ => pure [("Status", .int 200)]) [] =
      (.error (.keyError "Permissions"), []) := rfl

/-- C3 witness: both branches of the routing theorem evaluated at
concrete inputs — already-exists routes to update with `Permissions` and
`Type` stripped; a different provider error propagates unchanged. -/
theorem C3_create_or_update_routing_witness :
    (create_or_update_asset
        [("Permissions", .list []), ("Type", .str "POSTGRESQL"), ("Name", .str "n")]
        (fun _ => mThrow (.clientError "ResourceExistsException" []))
        (fun p => pure (dSet p "Status" (.int 200))) [] =
      ((fun p => pure (dSet p "Status" (.int 200)) : Dict → M Dict)
          (updateParams
            [("Permissions", .list []), ("Type", .str "POSTGRESQL"), ("Name", .str "n")]) >>=
        fun resp => liftE (checkStatus resp)) []) ∧
    create_or_update_asset
        [("Permissions", .list []), ("Type", .str "POSTGRESQL"), ("Name", .str "n")]
        (fun _ => mThrow (.valueError "boom"))
        (fun p => pure (dSet p "Status" (.int 200))) [] =
      (.error (.valueError "boom"), []) := by
  constructor
  · exact (C3_create_or_update_routing
      [("Permissions", .list []), ("Type", .str "POSTGRESQL"), ("Name", .str "n")]
      (fun _ => mThrow (.clientError "ResourceExistsException" [])) rfl).1
      [] (fun p => pure (dSet p "Status" (.int 200))) [] rfl
  · exact (C3_create_or_update_routing
      [("Permissions", .list []), ("Type", .str "POSTGRESQL"), ("Name", .str "n")]
      (fun _ => mThrow (.valueError "boom")) rfl).2
      (.valueError "boom") rfl rfl (fun p => pure (dSet p "Status" (.int 200))) []

/-- C9: when the parameter dictionary has no `Permissions` entry and the
create call raises already-exists, `create_or_update_asset` itself raises
`KeyError "Permissions"` — for every update function, so the update call
is never reached. -/
theorem C9_missing_permissions_keyerror (params : Dict) (create_fn : Dict → M Dict)
    (r : Dict) (hP : dContains params "Permissions" = false)
    (hc : create_fn params = mThrow (.clientError "ResourceExistsException" r)) :
    ∀ update_fn t, create_or_update_asset params create_fn update_fn t =
      (.error (.keyError "Permissions"), t) := by
  have hv := (dContains_false_iff params "Permissions").mp hP
  have hpop : dPop params "Permissions" = .error (.keyError "Permissions") := by
    unfold dPop
    rw [hv]
  intro update_fn t
  show (match create_fn params t with
    | (.ok response, t2) => liftE (checkStatus response) t2
    | (.error (.clientError code resp), t2) =>
      if code = "ResourceExistsException" then
        (do
          let p1 ← liftE (dPop params "Permissions")
          let p2 := if dContains p1 "Type" then dErase p1 "Type" else p1
          let response ← update_fn p2
          liftE (checkStatus response) : M Dict) t2
      else
        (.error (.clientError code resp), t2)
    | (.error e2, t2) => (.error e2, t2)) = _
  rw [hc]
  show (if "ResourceExistsException" = "ResourceExistsException" then _ else _) = _
  rw [if_pos rfl]
  rw [show (do
      let p1 ← liftE (dPop params "Permissions")
      let p2 := if dContains p1 "Type" then dErase p1 "Type" else p1
      let response ← update_fn p2
      liftE (checkStatus response) : M Dict) =
    (liftE (dPop params "Permissions") >>= fun p1 =>
      update_fn (if dContains p1 "Type" then dErase p1 "Type" else p1) >>= fun resp =>
        liftE (checkStatus resp)) from rfl]
  rw [hpop, m_bind_apply, liftE_err_apply]

/-- C9 witness: a concrete parameter dictionary without `Permissions`
hitting the already-exists path. -/
theorem C9_missing_permissions_keyerror_witness :
    create_or_update_asset [("DataSetId", .str "d1")]
      (fun _ => mThrow (.clientError "ResourceExistsException" []))
      (fun _ => pure [("Status", .int 200)]) [] =
      (.error (.keyError "Permissions"), []) :=
  C9_missing_permissions_keyerror [("DataSetId", .str "d1")]
    (fun _ => mThrow (.clientError "ResourceExistsException" [])) [] rfl rfl
    (fun _ => pure [("Status", .int 200)]) []

/-- C7 witness: both extractions evaluated on a concrete QuickSight ARN. -/
theorem C7_arn_extraction_witness :
    get_id_from_arn "arn:aws:quicksight:us-east-1:123456789012:dataset/my-data" =
      "my-data" ∧
    get_account_id_from_arn "arn:aws:quicksight:us-east-1:123456789012:dataset/my-data" =
      .ok "123456789012" := by
  have h := C7_arn_extraction "arn" "aws" "quicksight" "us-east-1" "123456789012"
    "dataset" "my-data" (by decide) (by decide) (by decide) (by decide) (by decide)
    (by decide)
  have heq : ("arn" : String) ++ ":" ++ "aws" ++ ":" ++ "quicksight" ++ ":" ++
      "us-east-1" ++ ":" ++ "123456789012" ++ ":" ++ "dataset" ++ "/" ++ "my-data" =
      "arn:aws:quicksight:us-east-1:123456789012:dataset/my-data" := by decide
  rwa [heq] at h

end QSSync
